import Mathlib

/-!
Verification development for the mc-bench comparison-and-rating subsystem.

Shallow embedding of:
* `src/mc_bench/util/glicko2.py` (Glicko-2 rating mathematics),
* the comparison API router `src/mc_bench/apps/api/routers/comparison.py`
  (batch token creation, vote recording),
* the prepared selection SQL in `src/mc_bench/apps/api/prepared_statements.py`,
* the background rating task `src/mc_bench/apps/worker/tasks/glicko_calculation.py`.

Floating point arithmetic in the Python source is modelled over the real
numbers; container state (PostgreSQL rows, Redis keys) is modelled as
explicit functional state threaded through the operations.
-/

namespace MCBench

/-! ## Glicko-2 rating mathematics (`mc_bench/util/glicko2.py`)

The Python module works with IEEE floats; here every float is a real number.
The two unbounded `while` loops of the volatility update are given explicit
fuel parameters; all proved statements hold for every fuel value.
-/

/-- System constant `TAU = 0.5` that constrains volatility changes. -/
noncomputable def TAU : ℝ := 0.5

/-- Convergence threshold `EPSILON = 0.000001`. -/
noncomputable def EPSILON : ℝ := 0.000001

/-- A Glicko rating triple, from the `GlickoRating` dataclass. -/
structure GlickoRating where
  rating : ℝ
  deviation : ℝ
  volatility : ℝ

/-- The `g` function: `1.0 / math.sqrt(1.0 + (3.0 * deviation**2) / (math.pi**2))`. -/
noncomputable def g (deviation : ℝ) : ℝ :=
  1 / Real.sqrt (1 + (3 * deviation ^ 2) / (Real.pi ^ 2))

/-- The expected-outcome function `E` exactly as the source computes it:
`1.0 / (1.0 + math.exp(-g(opponent_deviation) * (rating - opponent_rating) / 400.0))`.
Note the division by `400.0` inside the exponent. -/
noncomputable def E (rating opponent_rating opponent_deviation : ℝ) : ℝ :=
  1 / (1 + Real.exp (-g opponent_deviation * (rating - opponent_rating) / 400))

/-- The expected-outcome function of the canonical Glickman procedure, modelled
from the specification sentence: on the internal scale,
`E(µ, µopp, φopp) = 1 / (1 + exp(-g(φopp) · (µ − µopp)))` with no division
by 400. This definition follows the spec text and is compared against `E`,
which follows the source. -/
noncomputable def canonicalGlickmanE (mu opponent_mu opponent_phi : ℝ) : ℝ :=
  1 / (1 + Real.exp (-g opponent_phi * (mu - opponent_mu)))

/-- The `f` function used by the volatility iteration. -/
noncomputable def fVol (x delta deviation volatility v : ℝ) : ℝ :=
  Real.exp x * (delta ^ 2 - deviation ^ 2 - v - Real.exp x) /
      (2 * (deviation ^ 2 + v + Real.exp x) ^ 2) -
    (x - Real.log (volatility ^ 2)) / TAU ^ 2

/-- The initial bracketing loop `while f(a - k * TAU, ...) < 0: k += 1`,
returning the final `k`, with fuel for the unbounded search. -/
noncomputable def bracketK (fuel : ℕ) (k : ℕ) (a delta phi sigma v : ℝ) : ℕ :=
  match fuel with
  | 0 => k
  | fuel + 1 =>
    if fVol (a - k * TAU) delta phi sigma v < 0 then
      bracketK fuel (k + 1) a delta phi sigma v
    else k

/-- The regula-falsi style iteration
`while abs(B - A) > EPSILON: ...` from step 4 of the update, returning the
final value of `A` (the source then takes `exp(A / 2)`). -/
noncomputable def illinoisLoop (fuel : ℕ) (A B fa fb delta phi sigma v : ℝ) : ℝ :=
  match fuel with
  | 0 => A
  | fuel + 1 =>
    if |B - A| > EPSILON then
      let C := A + (A - B) * fa / (fb - fa)
      let fc := fVol C delta phi sigma v
      if fc * fb ≤ 0 then
        illinoisLoop fuel B C fb fc delta phi sigma v
      else
        illinoisLoop fuel A C (fa / 2) fc delta phi sigma v
    else A

/-- Internal-scale rating: `mu = (rating - 1500) / 173.7178`. -/
noncomputable def toMu (r : GlickoRating) : ℝ := (r.rating - 1500) / 173.7178

/-- Internal-scale deviation: `phi = deviation / 173.7178`. -/
noncomputable def toPhi (r : GlickoRating) : ℝ := r.deviation / 173.7178

/-- One summand of step 2: `g(opp_phi)**2 * E(mu, opp_mu, opp_phi) * (1 - E(...))`. -/
noncomputable def vTerm (mu : ℝ) (opp : GlickoRating × ℝ) : ℝ :=
  g (toPhi opp.1) ^ 2 * E mu (toMu opp.1) (toPhi opp.1) *
    (1 - E mu (toMu opp.1) (toPhi opp.1))

/-- The accumulated `v` before inversion (step 2 loop). -/
noncomputable def vSum (mu : ℝ) (opponents : List (GlickoRating × ℝ)) : ℝ :=
  (opponents.map (vTerm mu)).sum

/-- Step 2 result: `v = 1.0 / v if v != 0 else 0.0`. -/
noncomputable def computeV (mu : ℝ) (opponents : List (GlickoRating × ℝ)) : ℝ :=
  if vSum mu opponents ≠ 0 then 1 / vSum mu opponents else 0

/-- One summand of step 3: `g(opp_phi) * (outcome - E(mu, opp_mu, opp_phi))`. -/
noncomputable def deltaTerm (mu : ℝ) (opp : GlickoRating × ℝ) : ℝ :=
  g (toPhi opp.1) * (opp.2 - E mu (toMu opp.1) (toPhi opp.1))

/-- Step 3 result: `delta = v * sum(...)`. -/
noncomputable def computeDelta (mu v : ℝ) (opponents : List (GlickoRating × ℝ)) : ℝ :=
  v * (opponents.map (deltaTerm mu)).sum

/-- The initial `B` of step 4: either `log(delta^2 - phi^2 - v)` or `a - k * TAU`
with `k` found by the bracketing loop. -/
noncomputable def initialB (fuelK : ℕ) (a delta phi sigma v : ℝ) : ℝ :=
  if delta ^ 2 > phi ^ 2 + v then Real.log (delta ^ 2 - phi ^ 2 - v)
  else a - (bracketK fuelK 1 a delta phi sigma v : ℕ) * TAU

/-- Step 4 result: `sigma' = exp(A / 2)` with `A` from the iteration. -/
noncomputable def computeSigmaPrime (fuelK fuelI : ℕ) (a delta phi sigma v : ℝ) : ℝ :=
  let B := initialB fuelK a delta phi sigma v
  Real.exp
    (illinoisLoop fuelI a B (fVol a delta phi sigma v) (fVol B delta phi sigma v)
        delta phi sigma v / 2)

/-- Step 5: `phi_star = sqrt(phi^2 + sigma'^2)` and
`phi' = 1/sqrt(1/phi_star^2 + 1/v) if v != 0 else phi_star`. -/
noncomputable def computePhiPrime (phi sigmaPrime v : ℝ) : ℝ :=
  let phiStar := Real.sqrt (phi ^ 2 + sigmaPrime ^ 2)
  if v ≠ 0 then 1 / Real.sqrt (1 / phiStar ^ 2 + 1 / v) else phiStar

/-- Step 6: `mu' = mu + phi'^2 * sum(g(opp_phi) * (outcome - E(...)))`. -/
noncomputable def computeMuPrime (mu phiPrime : ℝ)
    (opponents : List (GlickoRating × ℝ)) : ℝ :=
  mu + phiPrime ^ 2 * (opponents.map (deltaTerm mu)).sum

/-- The final clamp of step 7: `new_deviation = min(350, max(30, new_deviation))`. -/
noncomputable def clampRD (x : ℝ) : ℝ := min 350 (max 30 x)

/-- The function `update_glicko2_rating` from `mc_bench/util/glicko2.py`, with fuel for the
two unbounded loops of the volatility step. -/
noncomputable def update_glicko2_rating (fuelK fuelI : ℕ) (r : GlickoRating)
    (opponents : List (GlickoRating × ℝ)) : GlickoRating :=
  let mu := toMu r
  let phi := toPhi r
  let sigma := r.volatility
  match opponents with
  | [] =>
    { rating := r.rating
      deviation := min 350 (173.7178 * Real.sqrt (phi ^ 2 + sigma ^ 2))
      volatility := sigma }
  | o :: os =>
    let opps := o :: os
    let v := computeV mu opps
    let delta := computeDelta mu v opps
    let a := Real.log (sigma ^ 2)
    let sigmaPrime := computeSigmaPrime fuelK fuelI a delta phi sigma v
    let phiPrime := computePhiPrime phi sigmaPrime v
    let muPrime := computeMuPrime mu phiPrime opps
    { rating := 173.7178 * muPrime + 1500
      deviation := clampRD (173.7178 * phiPrime)
      volatility := sigmaPrime }

/-! ## Pair-token payloads (`comparison.py`)

The batch endpoint stores, under the Redis key `active_comparison:{token}`,
the string `f"{metric.external_id}:{sample_1_id}:{sample_2_id}"`; the result
endpoint parses it with `token_data.split(":", 1)` applied twice.  Python's
`split(":", 1)` cuts at the first colon and raises (caught as the
malformed-token branch) when the string holds no colon; `splitFirstColon`
models exactly that. -/

/-- Split a character list at its first `':'`; `none` when no colon occurs
(the Python two-element unpacking of `split(":", 1)` then raises). -/
def splitCharsAtColon : List Char → Option (List Char × List Char)
  | [] => none
  | c :: cs =>
    if c = ':' then some ([], cs)
    else (splitCharsAtColon cs).map (fun p => (c :: p.1, p.2))

/-- Python's `s.split(":", 1)` on strings, successful only when a colon is present. -/
def splitFirstColon (s : String) : Option (String × String) :=
  (splitCharsAtColon s.data).map (fun p => (String.mk p.1, String.mk p.2))

/-- The payload written by the batch endpoint:
`f"{metric.external_id}:{sample_1_id}:{sample_2_id}"`. -/
def makeTokenPayload (metricId sample1Id sample2Id : String) : String :=
  metricId ++ ":" ++ sample1Id ++ ":" ++ sample2Id

/-- The parse performed by the result endpoint: split at the first colon,
then split the remainder at its first colon. -/
def parseTokenPayload (payload : String) : Option (String × String × String) := do
  let (metricId, sampleData) ← splitFirstColon payload
  let (sample1Id, sample2Id) ← splitFirstColon sampleData
  pure (metricId, sample1Id, sample2Id)

/-- Characters of the canonical string form of a Python `uuid.UUID`:
lowercase hexadecimal digits and the hyphen. -/
def isUuidChar (c : Char) : Bool :=
  c.isDigit || ('a' ≤ c && c ≤ 'f') || c == '-'

/-- A string consisting only of canonical UUID characters. -/
def IsUuidString (s : String) : Prop := ∀ c ∈ s.data, isUuidChar c = true

instance (s : String) : Decidable (IsUuidString s) := by
  unfold IsUuidString; infer_instance

/-! ## The vote-recording endpoint (`post_comparison` in `comparison.py`)

State touched by the endpoint: the scoring tables (users, samples joined to
their run's model, metrics, comparisons, comparison ranks) and the Redis
comparison database (pair-token keys, the `elo_calculation_in_progress`
lock key) plus the Celery queue, modelled as the list of task names sent. -/

/-- A row of `auth.user` as the endpoint uses it; `hasVotePermission` stands
for `PERM.VOTING.VOTE in user.scopes` (the permission catalogue itself is
outside this subsystem). -/
structure UserRec where
  externalId : String
  internalId : Nat
  hasVotePermission : Bool
deriving DecidableEq

/-- A sample row joined (as the endpoint's `selectinload` does) to its run's
model: internal id, `comparison_sample_id`, `test_set_id`, and the model's
display name. -/
structure SampleRec where
  internalId : Nat
  compSampleId : String
  testSetId : Option Nat
  modelName : String
deriving DecidableEq

/-- A row of `scoring.metric`. -/
structure MetricRec where
  externalId : String
  internalId : Nat
deriving DecidableEq

/-- A row of `scoring.comparison` as written by the endpoint. -/
structure ComparisonRow where
  id : Nat
  userId : Option Nat
  metricId : Nat
  testSetId : Nat
  sessionId : Nat
  identificationTokenId : Option Nat
deriving DecidableEq

/-- A row of `scoring.comparison_rank`. -/
structure ComparisonRankRow where
  comparisonId : Nat
  sampleId : Nat
  rank : Nat
deriving DecidableEq

/-- The database state visible to the endpoint. -/
structure Db where
  users : List UserRec
  samples : List SampleRec
  metrics : List MetricRec
  comparisons : List ComparisonRow
  comparisonRanks : List ComparisonRankRow
deriving DecidableEq

/-- Full state: database, Redis pair-token store (key/value pairs), the
`elo_calculation_in_progress` lock key, and the Celery tasks sent so far. -/
structure World where
  db : Db
  tokens : List (String × String)
  eloLockHeld : Bool
  enqueuedTasks : List String
deriving DecidableEq

/-- The caller's identity as resolved by the auth layer. -/
inductive Identity where
  | anonymous : Identity
  | authenticated (userUuid : String) : Identity
deriving DecidableEq

/-- The error exits of `post_comparison`, with their HTTP statuses below. -/
inductive VoteError where
  | userNotFound
  | tokenUnknownOrExpired
  | invalidTokenData
  | samplesNotFound
  | sampleLookupMismatch
  | ranksInvalid
  | metricNotFound
  | testSetMismatch
deriving DecidableEq

/-- HTTP status of each error exit, read off the `HTTPException` calls. -/
def httpStatus : VoteError → Nat
  | .userNotFound => 404
  | .tokenUnknownOrExpired => 404
  | .invalidTokenData => 500
  | .samplesNotFound => 404
  | .sampleLookupMismatch => 404
  | .ranksInvalid => 400
  | .metricNotFound => 500
  | .testSetMismatch => 500

/-- The Redis key of a pair token: `f"active_comparison:{token}"`. -/
def tokenKey (token : String) : String := "active_comparison:" ++ token

/-- Redis `GET`: the value stored under a key. -/
def lookupToken (store : List (String × String)) (k : String) : Option String :=
  (store.find? (fun p => p.1 == k)).map Prod.snd

/-- The store after Redis deletes a key (`getdel` removes the key). -/
def deleteToken (store : List (String × String)) (k : String) :
    List (String × String) :=
  store.filter (fun p => p.1 != k)

/-- Identity resolution and the vote-permission check (lines 252-268):
anonymous callers default to `can_vote = True`; an authenticated UUID that
matches no user is a 404; otherwise
`can_vote = PERM.VOTING.VOTE in user.scopes`. -/
def resolveVoter (db : Db) : Identity → Except VoteError (Option UserRec × Bool)
  | .anonymous => .ok (none, true)
  | .authenticated uuid =>
    match db.users.find? (fun u => u.externalId == uuid) with
    | none => .error .userNotFound
    | some u => .ok (some u, u.hasVotePermission)

/-- The samples fetched for the two parsed sample UUIDs
(`Sample.comparison_sample_id.in_([sample_1_id, sample_2_id])`). -/
def fetchSamples (db : Db) (id1 id2 : String) : List SampleRec :=
  db.samples.filter (fun s => s.compSampleId == id1 || s.compSampleId == id2)

/-- One position of the ranking loop (the tie branch, which subsumes the
single-id branch for singleton positions): each id must be one of the two
valid sample ids and must not have been seen at an earlier position; the
ids of the current position are collected and merged into `seen` only after
the position completes, exactly as `processed_sample_ids.update(...)` does. -/
def processPosition (valid seen : List String) (rank : Nat) :
    List String → Option (List (Nat × String) × List String)
  | [] => some ([], [])
  | sid :: rest =>
    if sid ∈ valid then
      if sid ∈ seen then none
      else
        match processPosition valid seen rank rest with
        | none => none
        | some (ps, cur) => some ((rank, sid) :: ps, sid :: cur)
    else none

/-- The full ranking loop over `request.ordered_sample_ids`: position `idx`
gets rank `idx + 1`; returns the `(rank, sample id)` pairs and the final
`processed_sample_ids`. -/
def processOrdered (valid : List String) (rank : Nat) (seen : List String) :
    List (List String) → Option (List (Nat × String) × List String)
  | [] => some ([], seen)
  | pos :: rest =>
    match processPosition valid seen rank pos with
    | none => none
    | some (ps, cur) =>
      match processOrdered valid (rank + 1) (seen ++ cur) rest with
      | none => none
      | some (ps', seen') => some (ps ++ ps', seen')

/-- Python's set equality `processed_sample_ids != valid_sample_ids`. -/
def sameSet (a b : List String) : Bool :=
  a.all (fun x => b.contains x) && b.all (fun x => a.contains x)

/-- The autoincrement id the flush assigns to the new comparison row. -/
def nextComparisonId (db : Db) : Nat :=
  (db.comparisons.map (fun c => c.id)).foldr max 0 + 1

/-- The body of `post_comparison` after identity resolution and token
consumption: parse the payload, fetch and validate the samples, validate
the ranking, resolve the metric, check the shared test set, and — only when
`can_vote` holds — persist a `Comparison` row with its `ComparisonRank`
rows and fire the single-flight Elo trigger (`redis.set(..., nx=True)` then
`send_task("elo_calculation")`).  The model-name pair is returned in token
order in every exit of the success path. -/
def recordVoteCore (w1 : World) (userOpt : Option UserRec) (canVote : Bool)
    (sessionId : Nat) (identTokenId : Option Nat) (payload : String)
    (orderedIds : List (List String)) :
    World × Except VoteError (String × String) :=
  match parseTokenPayload payload with
  | none => (w1, .error .invalidTokenData)
  | some (metricUuid, sample1Uuid, sample2Uuid) =>
    let fetched := fetchSamples w1.db sample1Uuid sample2Uuid
    if fetched.length ≠ 2 then (w1, .error .samplesNotFound)
    else
      match fetched.find? (fun s => s.compSampleId == sample1Uuid),
          fetched.find? (fun s => s.compSampleId == sample2Uuid) with
      | some sample1, some sample2 =>
        match processOrdered [sample1Uuid, sample2Uuid] 1 [] orderedIds with
        | none => (w1, .error .ranksInvalid)
        | some (rankPairs, processedIds) =>
          if ¬sameSet processedIds [sample1Uuid, sample2Uuid] then
            (w1, .error .ranksInvalid)
          else
            match w1.db.metrics.find? (fun m => m.externalId == metricUuid) with
            | none => (w1, .error .metricNotFound)
            | some metric =>
              match sample1.testSetId with
              | none => (w1, .error .testSetMismatch)
              | some testSetId =>
                if sample2.testSetId ≠ some testSetId then
                  (w1, .error .testSetMismatch)
                else if canVote then
                  let cid := nextComparisonId w1.db
                  let comparison : ComparisonRow :=
                    { id := cid
                      userId := userOpt.map (fun u => u.internalId)
                      metricId := metric.internalId
                      testSetId := testSetId
                      sessionId := sessionId
                      identificationTokenId := identTokenId }
                  let newRanks := rankPairs.map (fun p =>
                    ({ comparisonId := cid
                       sampleId :=
                         if p.2 == sample1Uuid then sample1.internalId
                         else sample2.internalId
                       rank := p.1 } : ComparisonRankRow))
                  let db2 :=
                    { w1.db with
                        comparisons := w1.db.comparisons ++ [comparison]
                        comparisonRanks := w1.db.comparisonRanks ++ newRanks }
                  let w2 := { w1 with db := db2 }
                  let w3 :=
                    if !w2.eloLockHeld then
                      { w2 with
                          eloLockHeld := true
                          enqueuedTasks := w2.enqueuedTasks ++ ["elo_calculation"] }
                    else w2
                  (w3, .ok (sample1.modelName, sample2.modelName))
                else
                  (w1, .ok (sample1.modelName, sample2.modelName))
      | _, _ => (w1, .error .sampleLookupMismatch)

/-- The endpoint `post_comparison` (`POST /api/comparison/result`): resolve the identity,
atomically consume the pair token with `redis.getdel`, then run the vote
body.  `sessionId` and `identTokenId` stand for the pair returned by
`am.process_session_headers`.  The returned `World` is the state after the
call, whether it succeeded or raised. -/
def postComparison (w : World) (identity : Identity) (sessionId : Nat)
    (identTokenId : Option Nat) (token : String)
    (orderedIds : List (List String)) :
    World × Except VoteError (String × String) :=
  match resolveVoter w.db identity with
  | .error e => (w, .error e)
  | .ok (userOpt, canVote) =>
    match lookupToken w.tokens (tokenKey token) with
    | none => (w, .error .tokenUnknownOrExpired)
    | some payload =>
      let w1 := { w with tokens := deleteToken w.tokens (tokenKey token) }
      recordVoteCore w1 userOpt canVote sessionId identTokenId payload orderedIds

/-! ## The batch-selection SQL (`prepared_statements.py`)

Relational model of the tables read by `comparison_batch_query` and
`comparison_batch_query_priority`: `sample.sample`, `specification.run`,
`specification.model` and `scoring.sample_approval_state`.  The `random()`
orderings only permute rows; every statement proved below is about the
candidate multisets the queries range over, so the permutation is left
abstract. -/

/-- A row of `sample.sample` (the columns the two queries touch). -/
structure SampleRow where
  id : Nat
  runId : Nat
  corrId : Nat
  compSampleId : Nat
  testSetId : Option Nat
  approvalStateId : Nat
deriving DecidableEq

/-- A row of `specification.run`. -/
structure RunRow where
  id : Nat
  modelId : Nat
  promptId : Nat
deriving DecidableEq

/-- A row of `specification.model`. -/
structure ModelRow where
  id : Nat
  name : String
deriving DecidableEq

/-- The read-only catalogue both queries run against.  `approvalStates` is
`scoring.sample_approval_state` as `(id, name)` pairs; the `approval_state`
CTE selects the ids whose name is `'APPROVED'`. -/
structure CatalogDb where
  samples : List SampleRow
  runs : List RunRow
  models : List ModelRow
  approvalStates : List (Nat × String)
deriving DecidableEq

/-- The `approval_state` CTE: ids of states named `APPROVED`. -/
def approvedStateIds (db : CatalogDb) : List Nat :=
  (db.approvalStates.filter (fun p => p.2 == "APPROVED")).map Prod.fst

/-- The join `sample.sample JOIN specification.run JOIN specification.model
CROSS JOIN approval_state WHERE approval_state_id = approved_state_id AND
test_set_id = $1`, shared by the `correlation_ids` and `sample_ids` CTEs of
both queries. -/
def joinedSamples (db : CatalogDb) (testSetId : Nat) :
    List (SampleRow × RunRow × ModelRow) :=
  (db.samples.flatMap fun s => db.runs.flatMap fun r => db.models.map fun m => (s, r, m))
    |>.filter (fun x =>
      x.1.runId == x.2.1.id && x.2.1.modelId == x.2.2.id &&
        (approvedStateIds db).contains x.1.approvalStateId &&
        x.1.testSetId == some testSetId)

/-- The grouping keys of the `correlation_ids` CTE:
`GROUP BY comparison_correlation_id, model.name`. -/
def correlationGroupKeys (db : CatalogDb) (testSetId : Nat) :
    List (Nat × String) :=
  ((joinedSamples db testSetId).map (fun x => (x.1.corrId, x.2.2.name))).dedup

/-- The `COUNT(*)` of one `(correlation id, model name)` group. -/
def correlationGroupCount (db : CatalogDb) (testSetId : Nat)
    (key : Nat × String) : Nat :=
  ((joinedSamples db testSetId).filter
    (fun x => (x.1.corrId, x.2.2.name) == key)).length

/-- The `correlation_ids` CTE of `comparison_batch_query` before its random
ordering and `LIMIT $2`: one output row per `(correlation id, model name)`
group with `COUNT(*) >= 2`, each row carrying the correlation id.  The same
correlation id appears once per qualifying model.  This is the multiset the
batch's `LIMIT $2` draw ranges over. -/
def correlationCandidates (db : CatalogDb) (testSetId : Nat) : List Nat :=
  ((correlationGroupKeys db testSetId).filter
    (fun k => 2 ≤ correlationGroupCount db testSetId k)).map Prod.fst

/-- The `correlation_ids` CTE of `comparison_batch_query_priority`: its extra
`model_priorities` join keeps every row (the CTE left-joins from
`specification.model` over all models), and its `ORDER BY` only reorders, so
the candidate multiset coincides with the uniform query's. -/
def correlationCandidatesPriority (db : CatalogDb) (testSetId : Nat) : List Nat :=
  correlationCandidates db testSetId

/-- Modelled from the spec: "Eligible `comparisonCorrelationId`s are those
with at least two distinct models' samples present in the test set" — the
distinct models with an approved sample under a correlation id. -/
def modelsInCorrelation (db : CatalogDb) (testSetId corrId : Nat) : List Nat :=
  (((joinedSamples db testSetId).filter (fun x => x.1.corrId == corrId)).map
    (fun x => x.2.2.id)).dedup

/-- Modelled from the spec: the eligible correlation ids, each listed once. -/
def specEligibleCorrelations (db : CatalogDb) (testSetId : Nat) : List Nat :=
  (((joinedSamples db testSetId).map (fun x => x.1.corrId)).dedup).filter
    (fun c => 2 ≤ (modelsInCorrelation db testSetId c).length)

/-- The `sample_ids` CTE (identical in both queries). -/
def sampleIdsCte (db : CatalogDb) (testSetId : Nat) :
    List (SampleRow × RunRow × ModelRow) :=
  joinedSamples db testSetId

/-- The candidate rows of the `sample_2` lateral join for a chosen
correlation id and `sample_1` row: same correlation id,
`comparison_sample_id != sample_1.comparison_sample_id` and
`model_id != sample_1.model_id` (both queries use exactly these filters;
they differ only in the lateral's ordering). -/
def sample2Candidates (db : CatalogDb) (testSetId corrId : Nat)
    (s1 : SampleRow × RunRow × ModelRow) :
    List (SampleRow × RunRow × ModelRow) :=
  (sampleIdsCte db testSetId).filter (fun x =>
    x.1.corrId == corrId && x.1.compSampleId != s1.1.compSampleId &&
      x.2.2.id != s1.2.2.id)

/-- A pair the uniform query can emit: a correlation id from its
`correlation_ids` CTE, a `sample_1` row of that correlation drawn from
`sample_ids`, and a `sample_2` row from the lateral join's candidates. -/
def isUniformPair (db : CatalogDb) (testSetId corrId : Nat)
    (s1 s2 : SampleRow × RunRow × ModelRow) : Prop :=
  corrId ∈ correlationCandidates db testSetId ∧
    s1 ∈ (sampleIdsCte db testSetId).filter (fun x => x.1.corrId == corrId) ∧
    s2 ∈ sample2Candidates db testSetId corrId s1

/-- A pair the priority query can emit (same shape; its orderings differ). -/
def isPriorityPair (db : CatalogDb) (testSetId corrId : Nat)
    (s1 s2 : SampleRow × RunRow × ModelRow) : Prop :=
  corrId ∈ correlationCandidatesPriority db testSetId ∧
    s1 ∈ (sampleIdsCte db testSetId).filter (fun x => x.1.corrId == corrId) ∧
    s2 ∈ sample2Candidates db testSetId corrId s1

/-! ## The Glicko rating task (`glicko_calculation.py`)

The marker table `scoring.processed_comparison` as the task reads and
writes it: rows hold a comparison id and a creation instant — there is no
rating-system column anywhere in the repository.  The task selects
comparisons with no marker row at all (`outerjoin ... WHERE
ProcessedComparison.id == None`, `LIMIT 1000`), processes each, and inserts
one marker per comparison whose ranks exist; a comparison with no ranks is
skipped without a marker (`process_comparison_for_glicko` returns early).
Leaderboard mutations are irrelevant to the marker dynamics and are
projected away here. -/

/-- A row of `scoring.processed_comparison` as the task constructs it:
`ProcessedComparison(comparison_id=..., created=...)` — no rating system. -/
structure ProcessedComparisonRow where
  comparisonId : Nat
  created : Nat
deriving DecidableEq

/-- The scoring state the marker logic of `glicko_calculation` touches. -/
structure RatingDb where
  comparisons : List Nat
  ranks : List ComparisonRankRow
  processed : List ProcessedComparisonRow
deriving DecidableEq

/-- The batch selection: comparisons having no `ProcessedComparison` row,
first 1000. -/
def unprocessedComparisons (db : RatingDb) : List Nat :=
  (db.comparisons.filter (fun c =>
    !(db.processed.any (fun p => p.comparisonId == c)))).take 1000

/-- Whether `process_comparison_for_glicko` reaches its marker insert: the
comparison's ranks must be non-empty (otherwise it returns early). -/
def marksComparison (db : RatingDb) (c : Nat) : Bool :=
  !(db.ranks.filter (fun rk => rk.comparisonId == c)).isEmpty

/-- Processing of one selected comparison as far as the marker table is
concerned: `db.add(ProcessedComparison(comparison_id=..., created=...))`
when the early returns are not taken. -/
def markStep (now : Nat) (acc : RatingDb) (c : Nat) : RatingDb :=
  if marksComparison acc c then
    { acc with processed := acc.processed ++ [⟨c, now⟩] }
  else acc

/-- One pass of `glicko_calculation` over its selected batch: each selected
comparison with ranks gets a `ProcessedComparison` marker. -/
def glickoRun (db : RatingDb) (now : Nat) : RatingDb :=
  (unprocessedComparisons db).foldl (markStep now) db

/-! ## Concrete test fixtures

Small concrete states used to evaluate the embedded operations at specific
inputs (for counterexamples and for witnesses of the conditional theorems). -/

/-- An authenticated user without `PERM.VOTING.VOTE`. -/
def exUserNoVote : UserRec := ⟨"u-1", 7, false⟩

/-- A sample of model `Alpha` in test set 1. -/
def exSampleA : SampleRec := ⟨10, "aaaa", some 1, "Alpha"⟩

/-- A sample of model `Beta` in test set 1. -/
def exSampleB : SampleRec := ⟨11, "bbbb", some 1, "Beta"⟩

/-- The metric the fixture token refers to. -/
def exMetric : MetricRec := ⟨"m-1", 3⟩

/-- Database with one non-voter user, two samples, one metric, no votes. -/
def exDb : Db := ⟨[exUserNoVote], [exSampleA, exSampleB], [exMetric], [], []⟩

/-- The payload the batch endpoint would store for the fixture pair. -/
def exPayload : String := "m-1:aaaa:bbbb"

/-- World with one live pair token and an idle Elo gate. -/
def exWorld : World :=
  ⟨exDb, [("active_comparison:tok1", exPayload)], false, []⟩

/-- The state `exWorld` after its only token has been consumed. -/
def exWorldConsumed : World := { exWorld with tokens := [] }

/-- A strict ranking: sample `aaaa` first, sample `bbbb` second. -/
def exRanks : List (List String) := [["aaaa"], ["bbbb"]]

/-- The state after an anonymous (hence voting-permitted) caller submits the
fixture ranking. -/
def exVotedWorld : World :=
  (postComparison exWorld .anonymous 5 none "tok1" exRanks).1

/-- Catalogue for the selection queries: correlation 9 has two approved
samples of each of models `A` and `B`; correlation 7 has exactly one
approved sample of each model. -/
def exCatalog : CatalogDb :=
  { samples :=
      [⟨3, 1, 9, 103, some 1, 5⟩, ⟨4, 1, 9, 104, some 1, 5⟩,
       ⟨5, 2, 9, 105, some 1, 5⟩, ⟨6, 2, 9, 106, some 1, 5⟩,
       ⟨7, 1, 7, 107, some 1, 5⟩, ⟨8, 2, 7, 108, some 1, 5⟩]
    runs := [⟨1, 1, 1⟩, ⟨2, 2, 1⟩]
    models := [⟨1, "A"⟩, ⟨2, "B"⟩]
    approvalStates := [(5, "APPROVED")] }

/-- A joined `sample_1` row of correlation 9 (model `A`). -/
def exPairRow1 : SampleRow × RunRow × ModelRow :=
  (⟨3, 1, 9, 103, some 1, 5⟩, ⟨1, 1, 1⟩, ⟨1, "A"⟩)

/-- A joined `sample_2` row of correlation 9 (model `B`). -/
def exPairRow2 : SampleRow × RunRow × ModelRow :=
  (⟨5, 2, 9, 105, some 1, 5⟩, ⟨2, 2, 1⟩, ⟨2, "B"⟩)

/-- Rating-task state: comparison 1 has two ranks and already carries its
(single, system-less) `ProcessedComparison` marker. -/
def exRatingDb : RatingDb := ⟨[1], [⟨1, 10, 1⟩, ⟨1, 11, 2⟩], [⟨1, 0⟩]⟩

/-! ## Helper lemmas -/

theorem clampRD_mem_bounds (x : ℝ) : 30 ≤ clampRD x ∧ clampRD x ≤ 350 := by
  unfold clampRD
  exact ⟨le_min (by norm_num) (le_max_left _ _), min_le_left _ _⟩

theorem one_div_one_add_exp_inj {a b : ℝ}
    (h : 1 / (1 + Real.exp a) = 1 / (1 + Real.exp b)) : a = b := by
  have ha : (0 : ℝ) < 1 + Real.exp a := by positivity
  have hb : (0 : ℝ) < 1 + Real.exp b := by positivity
  field_simp at h
  exact h.symm

/-! ## C8 — Glicko-2 RD bounds -/

/-- C8: for every Glicko-2 rating update against at least one opponent (and
any loop fuel), the post-update rating deviation lies in `[30, 350]` — the
final clamp `min(350, max(30, new_deviation))` guarantees it. -/
theorem glicko_rd_bounds (fuelK fuelI : ℕ) (r : GlickoRating)
    (opponents : List (GlickoRating × ℝ)) (h : opponents ≠ []) :
    30 ≤ (update_glicko2_rating fuelK fuelI r opponents).deviation ∧
      (update_glicko2_rating fuelK fuelI r opponents).deviation ≤ 350 := by
  match opponents, h with
  | o :: os, _ => exact clampRD_mem_bounds _

/-- Witness for C8 at a concrete update: the S4-style scenario of a
`{1500, 200, 0.06}` player beating a `{1500, 350, 0.06}` opponent. -/
theorem glicko_rd_bounds_witness :
    30 ≤ (update_glicko2_rating 1 1 ⟨1500, 200, 0.06⟩
            [(⟨1500, 350, 0.06⟩, 1)]).deviation ∧
      (update_glicko2_rating 1 1 ⟨1500, 200, 0.06⟩
            [(⟨1500, 350, 0.06⟩, 1)]).deviation ≤ 350 :=
  glicko_rd_bounds 1 1 ⟨1500, 200, 0.06⟩ [(⟨1500, 350, 0.06⟩, 1)]
    (List.cons_ne_nil _ _)

/-! ## C2 — the expected-score formula of the rating update -/

/-- C2: the expected score computed by the source's `E` differs from the
canonical Glickman expected score `1 / (1 + exp(-g(φ) · (µ − µopp)))` —
already at `µ = 1, µopp = 0, φopp = 0` the source (which divides the
internal-scale difference by 400) yields `1 / (1 + exp(-1/400))` while the
canonical procedure yields `1 / (1 + exp(-1))`. -/
theorem E_deviates_from_canonical_glickman : E 1 0 0 ≠ canonicalGlickmanE 1 0 0 := by
  have hg0 : g 0 = 1 := by
    unfold g
    norm_num
  have e1 : E 1 0 0 = 1 / (1 + Real.exp (-(1 / 400))) := by
    unfold E
    rw [hg0]
    norm_num
  have e2 : canonicalGlickmanE 1 0 0 = 1 / (1 + Real.exp (-1)) := by
    unfold canonicalGlickmanE
    rw [hg0]
    norm_num
  rw [e1, e2]
  intro h
  have h400 := one_div_one_add_exp_inj h
  norm_num at h400

/-! ## C5 — uniform-mode eligibility of correlation ids

The `correlation_ids` CTE groups by `(comparison_correlation_id,
model.name)` and keeps groups with `COUNT(*) >= 2`: a correlation id is a
candidate iff some *single* model has at least two approved samples there,
and it is listed once per such model.  The spec's eligibility (at least two
*distinct* models' samples) differs on `exCatalog`: correlation 7 (one
approved sample of each of two models — a pairable correlation) is
spec-eligible but never produced by the CTE, while correlation 9 appears
twice, so a `LIMIT 2` draw can return it twice, violating pairwise
distinctness. -/

/-- C5: at the failing input `exCatalog`, the code's candidate multiset is
`[9, 9]` (correlation 7 missing, correlation 9 duplicated and the list not
`Nodup`), while the spec-modelled eligible set is `{9, 7}`. -/
theorem correlation_eligibility_mismatch :
    correlationCandidates exCatalog 1 = [9, 9] ∧
      specEligibleCorrelations exCatalog 1 = [9, 7] ∧
      7 ∉ correlationCandidates exCatalog 1 ∧
      ¬(correlationCandidates exCatalog 1).Nodup := by decide

/-! ## C7 — distinct samples and distinct models within every pair -/

/-- C7: every pair either query can emit has distinct
`comparison_sample_id`s and distinct models, because the `sample_2`
lateral join filters on both inequalities. -/
theorem pair_distinct_sample_and_model (db : CatalogDb) (testSetId corrId : Nat)
    (s1 s2 : SampleRow × RunRow × ModelRow)
    (h : isUniformPair db testSetId corrId s1 s2 ∨
      isPriorityPair db testSetId corrId s1 s2) :
    s2.1.compSampleId ≠ s1.1.compSampleId ∧ s2.2.2.id ≠ s1.2.2.id := by
  have hmem : s2 ∈ sample2Candidates db testSetId corrId s1 := by
    rcases h with h | h
    · exact h.2.2
    · exact h.2.2
  unfold sample2Candidates at hmem
  rw [List.mem_filter] at hmem
  obtain ⟨-, hcond⟩ := hmem
  simp only [Bool.and_eq_true, bne_iff_ne, ne_eq] at hcond
  exact ⟨hcond.1.2, hcond.2⟩

/-- Witness for C7: a concrete emitted pair of `exCatalog`'s correlation 9. -/
theorem pair_distinct_sample_and_model_witness :
    exPairRow2.1.compSampleId ≠ exPairRow1.1.compSampleId ∧
      exPairRow2.2.2.id ≠ exPairRow1.2.2.id :=
  pair_distinct_sample_and_model exCatalog 1 9 exPairRow1 exPairRow2
    (Or.inl ⟨by decide, by decide, by decide⟩)

/-! ## C1 — ProcessedComparison markers and rating-system independence

`ProcessedComparisonRow` (from the only construction site,
`glicko_calculation.py` line 447) has no rating-system column, and the
batch selection excludes every comparison having *any* marker.  The claim's
independence half fails: once the Glicko run has marked comparison 1, no
subsequent rating run — of either system, since both would use the
system-blind marker table — selects it again, even though no "ELO marker"
distinct from the Glicko one was ever written. -/

/-- Counterexample to C1 as stated: in `exRatingDb` comparison 1 carries
the one marker the Glicko run wrote; the selection returns nothing and a
further run is a no-op, so the comparison is not "still selected and
processed by the other system's run until that system writes its own
marker". -/
theorem processed_marker_blocks_every_system_cx :
    unprocessedComparisons exRatingDb = [] ∧
      glickoRun exRatingDb 5 = exRatingDb := by decide

theorem markStep_ranks (now : Nat) (acc : RatingDb) (c : Nat) :
    (markStep now acc c).ranks = acc.ranks := by
  unfold markStep
  split <;> rfl

theorem foldl_markStep_spec (now : Nat) (l : List Nat) :
    ∀ db : RatingDb,
      (l.foldl (markStep now) db).processed
          = db.processed ++
            (l.filter (fun c => marksComparison db c)).map
              (fun c => (⟨c, now⟩ : ProcessedComparisonRow)) ∧
        (l.foldl (markStep now) db).ranks = db.ranks := by
  induction l with
  | nil => intro db; simp
  | cons c cs ih =>
    intro db
    obtain ⟨hp, hr⟩ := ih (markStep now db c)
    have hranks : (markStep now db c).ranks = db.ranks := markStep_ranks now db c
    have hmarks : ∀ x, marksComparison (markStep now db c) x = marksComparison db x := by
      intro x
      unfold marksComparison
      rw [hranks]
    constructor
    · rw [List.foldl_cons, hp, List.filter_congr (fun x _ => hmarks x),
        List.filter_cons]
      by_cases hc : marksComparison db c
      · simp only [hc, if_pos, List.map_cons]
        unfold markStep
        rw [if_pos hc]
        simp [List.append_assoc]
      · simp only [hc, Bool.false_eq_true, if_false]
        unfold markStep
        rw [if_neg hc]
    · rw [List.foldl_cons, hr, hranks]

/-- C1 amended: the marker table has no rating-system dimension.  Starting
from a state whose markers are unique per comparison id and whose
comparison ids are unique, a `glicko_calculation` pass keeps markers unique
per comparison id (it only marks comparisons that had no marker), and no
comparison with a marker — whichever run wrote it — is selected again. -/
theorem processed_markers_unique_and_final (db : RatingDb) (now : Nat)
    (hP : (db.processed.map (fun p => p.comparisonId)).Nodup)
    (hC : db.comparisons.Nodup) :
    ((glickoRun db now).processed.map (fun p => p.comparisonId)).Nodup ∧
      ∀ p ∈ db.processed, p.comparisonId ∉ unprocessedComparisons db := by
  have hsel : ∀ c ∈ unprocessedComparisons db, ∀ p ∈ db.processed,
      p.comparisonId ≠ c := by
    intro c hc p hp heq
    unfold unprocessedComparisons at hc
    have hc' := List.mem_of_mem_take hc
    rw [List.mem_filter] at hc'
    obtain ⟨-, hcond⟩ := hc'
    rw [Bool.not_eq_eq_eq_not, Bool.not_true, List.any_eq_false] at hcond
    exact absurd (by simp [heq]) (hcond p hp)
  refine ⟨?_, fun p hp hmem => hsel _ hmem p hp rfl⟩
  unfold glickoRun
  rw [(foldl_markStep_spec now (unprocessedComparisons db) db).1,
    List.map_append, List.map_map]
  rw [show ((fun p => p.comparisonId) ∘ fun c => (⟨c, now⟩ : ProcessedComparisonRow))
      = id from rfl, List.map_id]
  have hUnpNodup : (unprocessedComparisons db).Nodup := by
    unfold unprocessedComparisons
    exact ((hC.filter _).sublist (List.take_sublist _ _))
  refine List.Nodup.append hP (hUnpNodup.filter _) ?_
  intro a ha hb
  have hbmem : a ∈ unprocessedComparisons db := List.mem_of_mem_filter hb
  rw [List.mem_map] at ha
  obtain ⟨p, hp, hpa⟩ := ha
  exact hsel a hbmem p hp hpa

/-- Witness for C1's amended statement on the concrete fixture. -/
theorem processed_markers_unique_and_final_witness :
    ((glickoRun exRatingDb 5).processed.map (fun p => p.comparisonId)).Nodup ∧
      ∀ p ∈ exRatingDb.processed,
        p.comparisonId ∉ unprocessedComparisons exRatingDb :=
  processed_markers_unique_and_final exRatingDb 5 (by decide) (by decide)

/-! ## C9 — token payload round trip -/

theorem splitCharsAtColon_append (a b : List Char) (ha : ':' ∉ a) :
    splitCharsAtColon (a ++ ':' :: b) = some (a, b) := by
  induction a with
  | nil => simp [splitCharsAtColon]
  | cons c cs ih =>
    have hc : c ≠ ':' := fun h => ha (h ▸ List.mem_cons_self c cs)
    have hcs : ':' ∉ cs := fun h => ha (List.mem_cons_of_mem _ h)
    simp only [List.cons_append, splitCharsAtColon, if_neg hc, List.append_eq,
      ih hcs, Option.map_some']

theorem IsUuidString.no_colon {s : String} (h : IsUuidString s) :
    ':' ∉ s.data := by
  intro hc
  exact absurd (h ':' hc) (by decide)

/-- C9: the payload `f"{metric}:{sample1}:{sample2}"` written by the batch
endpoint round-trips through the result endpoint's two `split(":", 1)`
calls whenever the first two components are canonical UUID strings (UUID
strings never contain a colon); in particular the parse succeeds, so the
malformed-token branch is unreachable for payloads the batch endpoint
wrote. -/
theorem token_payload_round_trip (m s1 s2 : String)
    (hm : IsUuidString m) (h1 : IsUuidString s1) :
    parseTokenPayload (makeTokenPayload m s1 s2) = some (m, s1, s2) := by
  have hdata : (makeTokenPayload m s1 s2).data
      = m.data ++ ':' :: (s1.data ++ ':' :: s2.data) := by
    simp [makeTokenPayload, String.data_append, List.append_assoc]
  unfold parseTokenPayload splitFirstColon
  rw [hdata, splitCharsAtColon_append _ _ hm.no_colon]
  simp only [Option.map_some', Option.bind_eq_bind, Option.some_bind]
  rw [splitCharsAtColon_append _ _ h1.no_colon]
  rfl

/-- Witness for C9 on concrete canonical UUID strings. -/
theorem token_payload_round_trip_witness :
    parseTokenPayload
        (makeTokenPayload "11111111-2222-3333-4444-555555555555"
          "88888888-9999-aaaa-bbbb-cccccccccccc"
          "dddddddd-eeee-ffff-0000-111111111111")
      = some ("11111111-2222-3333-4444-555555555555",
          "88888888-9999-aaaa-bbbb-cccccccccccc",
          "dddddddd-eeee-ffff-0000-111111111111") :=
  token_payload_round_trip _ _ _ (by decide) (by decide)

/-! ## Shared lemmas about `recordVoteCore` and `postComparison` -/

theorem recordVoteCore_tokens (w1 : World) (userOpt : Option UserRec)
    (canVote : Bool) (sess : Nat) (itok : Option Nat) (payload : String)
    (ids : List (List String)) :
    (recordVoteCore w1 userOpt canVote sess itok payload ids).1.tokens
      = w1.tokens := by
  unfold recordVoteCore
  dsimp only
  repeat' split
  all_goals rfl

theorem recordVoteCore_enqueued (w1 : World) (userOpt : Option UserRec)
    (canVote : Bool) (sess : Nat) (itok : Option Nat) (payload : String)
    (ids : List (List String)) :
    (recordVoteCore w1 userOpt canVote sess itok payload ids).1.enqueuedTasks
        = w1.enqueuedTasks ∨
      (recordVoteCore w1 userOpt canVote sess itok payload ids).1.enqueuedTasks
        = w1.enqueuedTasks ++ ["elo_calculation"] := by
  unfold recordVoteCore
  dsimp only
  repeat' split
  all_goals first | exact Or.inl rfl | exact Or.inr rfl

theorem recordVoteCore_nonvoter_ok (w1 : World) (userOpt : Option UserRec)
    (sess : Nat) (itok : Option Nat) (payload : String)
    (ids : List (List String)) (w2 : World) (names : String × String)
    (h : recordVoteCore w1 userOpt false sess itok payload ids
        = (w2, .ok names)) :
    w2 = w1 ∧ ∃ mId aId bId sA sB,
      parseTokenPayload payload = some (mId, aId, bId) ∧
      (fetchSamples w1.db aId bId).find? (fun s => s.compSampleId == aId)
          = some sA ∧
      (fetchSamples w1.db aId bId).find? (fun s => s.compSampleId == bId)
          = some sB ∧
      names = (sA.modelName, sB.modelName) := by
  unfold recordVoteCore at h
  dsimp only at h
  repeat' split at h
  all_goals simp_all
  obtain ⟨-, hnames⟩ := h
  exact ⟨_, _, _, ⟨rfl, rfl, rfl⟩, _, by assumption, _, by assumption, hnames.symm⟩

theorem lookupToken_deleteToken (store : List (String × String)) (k : String) :
    lookupToken (deleteToken store k) k = none := by
  unfold lookupToken
  rw [Option.map_eq_none', List.find?_eq_none]
  intro x hx
  unfold deleteToken at hx
  rw [List.mem_filter] at hx
  simpa using hx.2

theorem postComparison_consumed_tokens (w : World) (identity : Identity)
    (sess : Nat) (itok : Option Nat) (token : String)
    (ids : List (List String)) (pr : Option UserRec × Bool) (payload : String)
    (hres : resolveVoter w.db identity = .ok pr)
    (hlook : lookupToken w.tokens (tokenKey token) = some payload) :
    (postComparison w identity sess itok token ids).1.tokens
      = deleteToken w.tokens (tokenKey token) := by
  obtain ⟨uo, cv⟩ := pr
  unfold postComparison
  rw [hres]
  dsimp only
  rw [hlook]
  dsimp only
  rw [recordVoteCore_tokens]

/-! ## C6 — single consumption of pair tokens -/

/-- C6: `redis.getdel` consumes the pair token atomically.  Part one: a call
whose token is absent from the store (never created, already consumed, or
expired — TTL expiry removes the key) fails with `tokenUnknownOrExpired`
(HTTP 404) and returns the state unchanged.  Part two: any call that found
the token (whatever its eventual outcome) leaves a state in which every
further call with the same token fails with `tokenUnknownOrExpired` and
changes nothing. -/
theorem token_single_consumption :
    (∀ (w : World) (identity : Identity) (sess : Nat) (itok : Option Nat)
        (token : String) (ids : List (List String))
        (pr : Option UserRec × Bool),
      resolveVoter w.db identity = .ok pr →
      lookupToken w.tokens (tokenKey token) = none →
      postComparison w identity sess itok token ids
        = (w, .error .tokenUnknownOrExpired)) ∧
    (∀ (w w1 : World) (id1 id2 : Identity) (sess1 sess2 : Nat)
        (itok1 itok2 : Option Nat) (token : String)
        (ids1 ids2 : List (List String)) (pr1 pr2 : Option UserRec × Bool)
        (res1 : Except VoteError (String × String)) (payload : String),
      resolveVoter w.db id1 = .ok pr1 →
      lookupToken w.tokens (tokenKey token) = some payload →
      postComparison w id1 sess1 itok1 token ids1 = (w1, res1) →
      resolveVoter w1.db id2 = .ok pr2 →
      postComparison w1 id2 sess2 itok2 token ids2
        = (w1, .error .tokenUnknownOrExpired)) := by
  have partA : ∀ (w : World) (identity : Identity) (sess : Nat)
      (itok : Option Nat) (token : String) (ids : List (List String))
      (pr : Option UserRec × Bool),
      resolveVoter w.db identity = .ok pr →
      lookupToken w.tokens (tokenKey token) = none →
      postComparison w identity sess itok token ids
        = (w, .error .tokenUnknownOrExpired) := by
    intro w identity sess itok token ids pr hres hlook
    obtain ⟨uo, cv⟩ := pr
    unfold postComparison
    rw [hres]
    dsimp only
    rw [hlook]
  refine ⟨partA, ?_⟩
  intro w w1 id1 id2 sess1 sess2 itok1 itok2 token ids1 ids2 pr1 pr2 res1
    payload hres1 hlook1 hcall hres2
  have htok : w1.tokens = deleteToken w.tokens (tokenKey token) := by
    have h := postComparison_consumed_tokens w id1 sess1 itok1 token ids1 pr1
      payload hres1 hlook1
    rw [hcall] at h
    exact h
  have hlooknone : lookupToken w1.tokens (tokenKey token) = none := by
    rw [htok]
    exact lookupToken_deleteToken _ _
  exact partA w1 id2 sess2 itok2 token ids2 pr2 hres2 hlooknone

/-- Witness for C6: after the fixture token was consumed by a successful
vote, a second submission of the same token fails without touching state. -/
theorem token_single_consumption_witness :
    postComparison exVotedWorld .anonymous 6 none "tok1" exRanks
      = (exVotedWorld, .error .tokenUnknownOrExpired) :=
  token_single_consumption.2 exWorld exVotedWorld .anonymous .anonymous 5 6
    none none "tok1" exRanks exRanks (none, true) (none, true)
    ((postComparison exWorld .anonymous 5 none "tok1" exRanks).2) exPayload
    rfl rfl rfl rfl

/-! ## C3 — authenticated callers without the vote permission

The endpoint never raises a 403.  `can_vote` only guards the persistence
block (`if can_vote:` at line 380); a permission-less authenticated caller
falls through to the final `return` and receives the model names. -/

/-- Counterexample to C3 as stated: for the fixture non-voter `u-1` with a
valid token and ranking, the call succeeds with the model names — it does
not fail with Forbidden (no error exit of the endpoint carries status 403)
— while indeed persisting no Comparison or ComparisonRank row. -/
theorem nonvoter_request_succeeds_cx :
    postComparison exWorld (.authenticated "u-1") 5 none "tok1" exRanks
        = (exWorldConsumed, .ok ("Alpha", "Beta")) ∧
      exWorldConsumed.db.comparisons = [] ∧
      exWorldConsumed.db.comparisonRanks = [] :=
  ⟨rfl, rfl, rfl⟩

/-- C3 amended: a recordVote call whose identity resolves to an existing
authenticated user lacking the vote permission is *not* rejected: when it
succeeds it persists no Comparison and no ComparisonRank row; anonymous
identities are always permitted (`can_vote` defaults to true). -/
theorem nonvoter_success_persists_nothing (w : World) (uuid : String)
    (u : UserRec) (sess : Nat) (itok : Option Nat) (token : String)
    (ids : List (List String)) (w2 : World) (names : String × String)
    (hu : w.db.users.find? (fun x => x.externalId == uuid) = some u)
    (hperm : u.hasVotePermission = false)
    (hcall : postComparison w (.authenticated uuid) sess itok token ids
        = (w2, .ok names)) :
    w2.db.comparisons = w.db.comparisons ∧
      w2.db.comparisonRanks = w.db.comparisonRanks ∧
      resolveVoter w.db .anonymous = .ok (none, true) := by
  have hres : resolveVoter w.db (.authenticated uuid) = .ok (some u, false) := by
    simp only [resolveVoter, hu, hperm]
  unfold postComparison at hcall
  rw [hres] at hcall
  dsimp only at hcall
  cases hlook : lookupToken w.tokens (tokenKey token) with
  | none =>
    rw [hlook] at hcall
    exact absurd hcall (by simp)
  | some payload =>
    rw [hlook] at hcall
    dsimp only at hcall
    obtain ⟨hw, -⟩ :=
      recordVoteCore_nonvoter_ok _ _ _ _ _ _ _ _ hcall
    subst hw
    exact ⟨rfl, rfl, rfl⟩

/-- Witness for C3's amended statement on the fixture data. -/
theorem nonvoter_success_persists_nothing_witness :
    exWorldConsumed.db.comparisons = exWorld.db.comparisons ∧
      exWorldConsumed.db.comparisonRanks = exWorld.db.comparisonRanks ∧
      resolveVoter exWorld.db .anonymous = .ok (none, true) :=
  nonvoter_success_persists_nothing exWorld "u-1" exUserNoVote 5 none "tok1"
    exRanks exWorldConsumed ("Alpha", "Beta") rfl rfl rfl

/-! ## C10 — frame property of the permission-less path -/

/-- C10: when the caller is an authenticated user without the vote
permission and the call succeeds, the durable scoring state is entirely
unchanged (same database, no task enqueued, Elo gate untouched) while the
pair token is still consumed, and the response carries the two samples'
model names in the token's order. -/
theorem nonvoter_frame_property (w : World) (uuid : String) (u : UserRec)
    (sess : Nat) (itok : Option Nat) (token : String)
    (ids : List (List String)) (w2 : World) (names : String × String)
    (hu : w.db.users.find? (fun x => x.externalId == uuid) = some u)
    (hperm : u.hasVotePermission = false)
    (hcall : postComparison w (.authenticated uuid) sess itok token ids
        = (w2, .ok names)) :
    w2.db = w.db ∧ w2.enqueuedTasks = w.enqueuedTasks ∧
      w2.eloLockHeld = w.eloLockHeld ∧
      w2.tokens = deleteToken w.tokens (tokenKey token) ∧
      ∃ payload mId aId bId sA sB,
        lookupToken w.tokens (tokenKey token) = some payload ∧
        parseTokenPayload payload = some (mId, aId, bId) ∧
        (fetchSamples w.db aId bId).find? (fun s => s.compSampleId == aId)
            = some sA ∧
        (fetchSamples w.db aId bId).find? (fun s => s.compSampleId == bId)
            = some sB ∧
        names = (sA.modelName, sB.modelName) := by
  have hres : resolveVoter w.db (.authenticated uuid) = .ok (some u, false) := by
    simp only [resolveVoter, hu, hperm]
  unfold postComparison at hcall
  rw [hres] at hcall
  dsimp only at hcall
  cases hlook : lookupToken w.tokens (tokenKey token) with
  | none =>
    rw [hlook] at hcall
    exact absurd hcall (by simp)
  | some payload =>
    rw [hlook] at hcall
    dsimp only at hcall
    obtain ⟨hw, mId, aId, bId, sA, sB, h1, h2, h3, h4⟩ :=
      recordVoteCore_nonvoter_ok _ _ _ _ _ _ _ _ hcall
    subst hw
    exact ⟨rfl, rfl, rfl, rfl, payload, mId, aId, bId, sA, sB, rfl, h1, h2,
      h3, h4⟩

/-- Witness for C10 on the fixture data. -/
theorem nonvoter_frame_property_witness :
    exWorldConsumed.db = exWorld.db ∧
      exWorldConsumed.enqueuedTasks = exWorld.enqueuedTasks ∧
      exWorldConsumed.eloLockHeld = exWorld.eloLockHeld ∧
      exWorldConsumed.tokens = deleteToken exWorld.tokens (tokenKey "tok1") ∧
      ∃ payload mId aId bId sA sB,
        lookupToken exWorld.tokens (tokenKey "tok1") = some payload ∧
        parseTokenPayload payload = some (mId, aId, bId) ∧
        (fetchSamples exWorld.db aId bId).find?
            (fun s => s.compSampleId == aId) = some sA ∧
        (fetchSamples exWorld.db aId bId).find?
            (fun s => s.compSampleId == bId) = some sB ∧
        ("Alpha", "Beta") = (sA.modelName, sB.modelName) :=
  nonvoter_frame_property exWorld "u-1" exUserNoVote 5 none "tok1" exRanks
    exWorldConsumed ("Alpha", "Beta") rfl rfl rfl

/-! ## C4 — what the recorder triggers after a successful vote

The success path contains exactly one trigger: the set-if-absent of the
`elo_calculation_in_progress` key followed by `send_task("elo_calculation")`.
No Glicko trigger exists anywhere in `post_comparison`. -/

/-- Counterexample to C4 as stated: a successful vote on the fixture world
enqueues exactly `elo_calculation`; no `glicko_calculation` task is sent,
so the recorder does not invoke the single-flight trigger for both rating
systems. -/
theorem vote_triggers_elo_only_cx :
    (postComparison exWorld .anonymous 5 none "tok1" exRanks).1.enqueuedTasks
        = ["elo_calculation"] ∧
      "glicko_calculation" ∉
        (postComparison exWorld .anonymous 5 none "tok1" exRanks).1.enqueuedTasks ∧
      (postComparison exWorld .anonymous 5 none "tok1" exRanks).2
        = .ok ("Alpha", "Beta") :=
  ⟨rfl, by decide, rfl⟩

/-- C4 amended: every recordVote call enqueues either nothing or exactly the
single `elo_calculation` task (when the Elo gate's set-if-absent succeeds);
no GLICKO trigger is ever invoked by the recorder. -/
theorem vote_enqueues_at_most_elo (w : World) (identity : Identity)
    (sess : Nat) (itok : Option Nat) (token : String)
    (ids : List (List String)) (w2 : World)
    (res : Except VoteError (String × String))
    (h : postComparison w identity sess itok token ids = (w2, res)) :
    w2.enqueuedTasks = w.enqueuedTasks ∨
      w2.enqueuedTasks = w.enqueuedTasks ++ ["elo_calculation"] := by
  unfold postComparison at h
  split at h
  · injection h with h1 h2
    subst h1
    exact Or.inl rfl
  · split at h
    · injection h with h1 h2
      subst h1
      exact Or.inl rfl
    · rename_i x1 userOpt canVote heq1 x2 payload heq2
      have he := recordVoteCore_enqueued
        { w with tokens := deleteToken w.tokens (tokenKey token) } userOpt
        canVote sess itok payload ids
      dsimp only at h
      rw [h] at he
      exact he

/-- Witness for C4's amended statement: the fixture vote enqueues only the
Elo task. -/
theorem vote_enqueues_at_most_elo_witness :
    exVotedWorld.enqueuedTasks = exWorld.enqueuedTasks ∨
      exVotedWorld.enqueuedTasks = exWorld.enqueuedTasks ++ ["elo_calculation"] :=
  vote_enqueues_at_most_elo exWorld .anonymous 5 none "tok1" exRanks
    exVotedWorld ((postComparison exWorld .anonymous 5 none "tok1" exRanks).2)
    rfl

end MCBench
